import Mathlib

/-!
Shallow embedding of the fallback relay subsystem of the Docker-Project
backend: `main.py` (FALLBACK_QUEUES, send_to_fallback_queue, FallbackWorker),
`consumers/sql_consumer.py` (SQLConsumer), `consumers/nosql_consumer.py`
(NoSQLConsumer) and `messaging/rabbitmq_client.py` (RabbitMQClient).

Python dict payloads are modelled as association lists of string keys to
string values; external effects (broker channel, store sessions, writes)
are modelled by explicit boolean fault oracles, and exceptions by the
control path the corresponding `except` handler takes in the source.
-/

/-- A Python key-value payload (`data` dict inside a fallback envelope). -/
abbrev Payload := List (String × String)

/-- The fallback envelope exactly as built by `send_to_fallback_queue`
(main.py 89-108) and mutated by `FallbackWorker._requeue_with_retry`
(main.py 528-543). Field names match the JSON keys; `Option` marks keys a
dict may lack (read through `.get` with a default in the source). -/
structure FallbackMessage where
  operation_type : Option String
  timestamp : Option String
  data : Payload
  retry_count : Option Nat
  last_retry : Option String
deriving DecidableEq, Repr

/-- `FALLBACK_QUEUES` (main.py 53-58). -/
def FALLBACK_QUEUES : List (String × String) :=
  [("postgres", "postgres_fallback_queue"),
   ("mongo", "mongo_fallback_queue"),
   ("users", "users_fallback_queue"),
   ("logs", "logs_fallback_queue")]

/-- `FALLBACK_QUEUES[key]` lookup. -/
def fallbackQueue (key : String) : String :=
  (FALLBACK_QUEUES.lookup key).getD ""

/-- Queue the user-creation fallback publish targets:
`FALLBACK_QUEUES["users"]` at the `create_user` call site (main.py 221-225). -/
def producer_users_queue : String := fallbackQueue "users"

/-- Queue the log-creation fallback publish targets:
`FALLBACK_QUEUES["logs"]` at the `create_log` call site (main.py 297-301). -/
def producer_logs_queue : String := fallbackQueue "logs"

/-- Queue drained by `FallbackWorker._process_users_queue` (main.py 410). -/
def worker_users_queue : String := fallbackQueue "users"

/-- Queue drained by `FallbackWorker._process_logs_queue` (main.py 446). -/
def worker_logs_queue : String := fallbackQueue "logs"

/-- Queue the dedicated SQL consumer subscribes to:
`self.queue_name = 'sql_fallback'` (sql_consumer.py 23). -/
def sqlConsumer_queue_name : String := "sql_fallback"

/-- Queue the dedicated NoSQL consumer subscribes to:
`self.queue_name = 'nosql_fallback'` (nosql_consumer.py 21). -/
def nosqlConsumer_queue_name : String := "nosql_fallback"

/-- Fault oracle for one `RabbitMQClient.send_message` call
(rabbitmq_client.py 35-53): whether `ensure_connection` left a usable
channel, whether `json.dumps` succeeds, whether `basic_publish` succeeds.
(`declare_queue` swallows its own failures internally, lines 27-33.) -/
structure BrokerFaults where
  channelAvailable : Bool
  serializeOk : Bool
  publishOk : Bool
deriving DecidableEq, Repr

/-- The body of `RabbitMQClient.send_message` before its `except` handler:
`None` channel returns `False` directly; serialization and publish faults
raise (modelled as `Except.error`). -/
def send_message_attempt (queue_name : String) (message : FallbackMessage)
    (f : BrokerFaults) : Except String Bool :=
  if !f.channelAvailable then pure false
  else if !f.serializeOk then Except.error "serialization error"
  else if !f.publishOk then Except.error "publish error"
  else pure true

/-- `RabbitMQClient.send_message` (rabbitmq_client.py 35-53): the whole body
runs under `try`, and the `except` handler turns any raised fault into the
return value `False`. -/
def send_message (queue_name : String) (message : FallbackMessage)
    (f : BrokerFaults) : Bool :=
  match send_message_attempt queue_name message f with
  | .ok b => b
  | .error _ => false

/-- The relational user store: rows `(name, email)`; `email` is the unique
key (`User` model, sql_connection.py 28-34). -/
abbrev UserDB := List (String × String)

/-- Whether a row with this email exists (`db.query(User).filter(...)`). -/
def emailExists (db : UserDB) (email : String) : Bool :=
  db.any (fun r => r.2 == email)

/-- Number of persisted rows carrying this email. -/
def countEmail (db : UserDB) (email : String) : Nat :=
  (db.filter (fun r => r.2 == email)).length

/-- Fault oracle for one replay against the relational store: whether
`get_session_with_retry` succeeds, whether the duplicate-check query
succeeds, whether `add`/`commit` succeeds. -/
structure StoreFaults where
  sessionOk : Bool
  queryOk : Bool
  insertOk : Bool
deriving DecidableEq, Repr

/-- `FallbackWorker._create_user_from_queue` (main.py 483-505). Evaluation
order follows the source: session first; `data["email"]` (KeyError caught by
the enclosing handler, returning `False`); duplicate-check query; existing
user treated as success; `data["name"]`; then the insert. -/
def create_user_from_queue (data : Payload) (db : UserDB) (s : StoreFaults) :
    Bool × UserDB :=
  if !s.sessionOk then (false, db)
  else
    match data.lookup "email" with
    | none => (false, db)
    | some email =>
      if !s.queryOk then (false, db)
      else if emailExists db email then (true, db)
      else
        match data.lookup "name" with
        | none => (false, db)
        | some name =>
          if !s.insertOk then (false, db)
          else (true, db ++ [(name, email)])

/-- The document log store: entries `(action, details)`. -/
abbrev LogDB := List (String × String)

/-- `FallbackWorker._create_log_from_queue` (main.py 507-526). The Mongo
client is lazy, so `data["action"]` / `data["details"]` (KeyError caught by
the handler, returning `False`) are evaluated before the insert can fail. -/
def create_log_from_queue (data : Payload) (logs : LogDB) (insertOk : Bool) :
    Bool × LogDB :=
  match data.lookup "action" with
  | none => (false, logs)
  | some action =>
    match data.lookup "details" with
    | none => (false, logs)
    | some details =>
      if !insertOk then (false, logs)
      else (true, logs ++ [(action, details)])

/-- `FallbackWorker._requeue_with_retry` (main.py 528-543). Returns the one
publish action it performs: target queue name and published message. -/
def requeue_with_retry (queue_name : String) (message : FallbackMessage)
    (now : String) : String × FallbackMessage :=
  let retry_count := message.retry_count.getD 0 + 1
  let max_retries := 5
  if retry_count ≤ max_retries then
    (queue_name,
     { message with retry_count := some retry_count, last_retry := some now })
  else
    (queue_name ++ "_dead_letter", message)

/-- One iteration body of the `_process_users_queue` drain loop
(main.py 417-439) after `receive_message` has already removed (auto-acked)
`message` from the queue: returns the publish actions issued and the store
state. An `operation_type` other than `"create_user"` falls through the
`if` with no action at all. -/
def handle_users_message (message : FallbackMessage) (db : UserDB)
    (s : StoreFaults) (now : String) :
    List (String × FallbackMessage) × UserDB :=
  if message.operation_type.getD "unknown" == "create_user" then
    let r := create_user_from_queue message.data db s
    if r.1 then ([], r.2)
    else ([requeue_with_retry worker_users_queue message now], r.2)
  else ([], db)

/-- One iteration body of the `_process_logs_queue` drain loop
(main.py 456-478), same shape as the users one. -/
def handle_logs_message (message : FallbackMessage) (logs : LogDB)
    (insertOk : Bool) (now : String) :
    List (String × FallbackMessage) × LogDB :=
  if message.operation_type.getD "unknown" == "create_log" then
    let r := create_log_from_queue message.data logs insertOk
    if r.1 then ([], r.2)
    else ([requeue_with_retry worker_logs_queue message now], r.2)
  else ([], logs)

/-- Broker-side queue state seen by the polling worker: the active fallback
queue and its derived dead-letter queue. -/
structure QueueState where
  active : List FallbackMessage
  dead : List FallbackMessage
deriving DecidableEq, Repr

/-- Route one publish action into the queue state: a publish to the active
queue appends there, anything else lands in the derived dead-letter queue
(the only other target `_requeue_with_retry` uses). -/
def applyPublish (activeName : String) (qs : QueueState)
    (p : String × FallbackMessage) : QueueState :=
  if p.1 == activeName then { qs with active := qs.active ++ [p.2] }
  else { qs with dead := qs.dead ++ [p.2] }

/-- The `while True` drain loop of `_process_users_queue` (main.py 417-439):
pull one message (auto-ack removes it), handle it, fold its publish actions
back into the queues; stop when the queue is empty. `fuel` bounds the loop;
the third component counts messages pulled. -/
def drain_users (s : StoreFaults) (now : String) :
    Nat → UserDB → QueueState → Nat → UserDB × QueueState × Nat
  | 0, db, qs, pulls => (db, qs, pulls)
  | fuel + 1, db, qs, pulls =>
    match qs.active with
    | [] => (db, qs, pulls)
    | m :: rest =>
      let step := handle_users_message m db s now
      let qs2 := step.1.foldl (applyPublish worker_users_queue)
        { qs with active := rest }
      drain_users s now fuel step.2 qs2 (pulls + 1)

/-- `FallbackWorker._process_users_queue` (main.py 408-442): the
`check_database_health()` gate runs before any receive; on failure the
method returns with the queue untouched and zero messages pulled. -/
def process_users_queue (healthy : Bool) (s : StoreFaults) (now : String)
    (fuel : Nat) (db : UserDB) (qs : QueueState) :
    UserDB × QueueState × Nat :=
  if !healthy then (db, qs, 0)
  else drain_users s now fuel db qs 0

/-- The drain loop of `_process_logs_queue` (main.py 456-478). -/
def drain_logs (insertOk : Bool) (now : String) :
    Nat → LogDB → QueueState → Nat → LogDB × QueueState × Nat
  | 0, logs, qs, pulls => (logs, qs, pulls)
  | fuel + 1, logs, qs, pulls =>
    match qs.active with
    | [] => (logs, qs, pulls)
    | m :: rest =>
      let step := handle_logs_message m logs insertOk now
      let qs2 := step.1.foldl (applyPublish worker_logs_queue)
        { qs with active := rest }
      drain_logs insertOk now fuel step.2 qs2 (pulls + 1)

/-- `FallbackWorker._process_logs_queue` (main.py 444-481): the Mongo ping
gate runs before any receive; a failed ping returns with the queue
untouched and zero messages pulled. -/
def process_logs_queue (healthy : Bool) (insertOk : Bool) (now : String)
    (fuel : Nat) (logs : LogDB) (qs : QueueState) :
    LogDB × QueueState × Nat :=
  if !healthy then (logs, qs, 0)
  else drain_logs insertOk now fuel logs qs 0

/-- Acknowledgment outcomes of the dedicated consumer's message callback:
`basic_ack`, `basic_nack(requeue=True)`, `basic_nack(requeue=False)`. -/
inductive ConsumerAck where
  | ack
  | nackRequeue
  | nackDrop
deriving DecidableEq, Repr

/-- AMQP headers of a delivery (`properties.headers`); `none` models a
delivery whose properties carry no (or falsy/empty) headers. -/
abbrev Headers := Option (List (String × Nat))

/-- The retry count the dedicated consumer reads (sql_consumer.py 136-139):
`properties.headers.get('retry_count', 0)` when headers are present and
truthy, else `0`. -/
def headerRetryCount (headers : Headers) : Nat :=
  match headers with
  | none => 0
  | some hs => (hs.lookup "retry_count").getD 0

/-- The inner-exception retry decision of `SQLConsumer.process_message`
(sql_consumer.py 136-146): requeue while the header count is below 3,
otherwise drop. -/
def sqlRetryDecision (headers : Headers) : ConsumerAck :=
  if headerRetryCount headers < 3 then ConsumerAck.nackRequeue
  else ConsumerAck.nackDrop

/-- `SQLConsumer.process_message` (sql_consumer.py 92-157). `body` is the
parsed JSON body (`none` = `json.JSONDecodeError`, dropped); top-level
`name`/`email` validation precedes everything; a `get_session_with_retry`
failure lands in the outer generic handler (unconditional requeue); inner
store exceptions (query or insert) take the header-count retry decision;
an existing email is acknowledged as success. -/
def sql_process_message (body : Option Payload) (headers : Headers)
    (s : StoreFaults) (db : UserDB) : ConsumerAck × UserDB :=
  match body with
  | none => (ConsumerAck.nackDrop, db)
  | some data =>
    match data.lookup "name", data.lookup "email" with
    | some name, some email =>
      if !s.sessionOk then (ConsumerAck.nackRequeue, db)
      else if !s.queryOk then (sqlRetryDecision headers, db)
      else if emailExists db email then (ConsumerAck.ack, db)
      else if !s.insertOk then (sqlRetryDecision headers, db)
      else (ConsumerAck.ack, db ++ [(name, email)])
    | _, _ => (ConsumerAck.nackDrop, db)

/-- AMQP semantics of `basic_nack(requeue=True)`: the broker returns the
very same delivery — body and properties/headers unchanged — to the queue,
and the next delivery of this envelope carries exactly them. -/
def redelivered (body : Option Payload) (headers : Headers) :
    Option Payload × Headers := (body, headers)

/-- `time.sleep(10)` between probe attempts (sql_consumer.py 87). -/
def postgres_poll_interval : Nat := 10

/-- `range(1, 31)`: at most 30 probe attempts (sql_consumer.py 78). -/
def postgres_max_attempts : Nat := 30

/-- The probe loop of `SQLConsumer.wait_for_postgres` (sql_consumer.py
74-90), over a health oracle indexed by attempt number: returns on the
first successful probe, gives up when the attempts are exhausted. -/
def wait_for_postgres_from (health : Nat → Bool) : Nat → Nat → Bool
  | _, 0 => false
  | attempt, fuel + 1 =>
    if health attempt then true
    else wait_for_postgres_from health (attempt + 1) fuel

/-- `SQLConsumer.wait_for_postgres` (sql_consumer.py 74-90). -/
def wait_for_postgres (health : Nat → Bool) : Bool :=
  wait_for_postgres_from health 1 postgres_max_attempts

/-- Outcome of the startup prefix of `SQLConsumer.start_consuming`. -/
inductive StartOutcome where
  | failedStore
  | failedBroker
  | consuming
deriving DecidableEq, Repr

/-- Startup prefix of `SQLConsumer.start_consuming` (sql_consumer.py
159-167): first `wait_for_postgres`, returning failure without touching
the broker when it gives up; only then `connect_rabbitmq`. The second
component records whether a broker connection was ever attempted. -/
def start_consuming (health : Nat → Bool) (brokerOk : Bool) :
    StartOutcome × Bool :=
  if wait_for_postgres health then
    (if brokerOk then (StartOutcome.consuming, true)
     else (StartOutcome.failedBroker, true))
  else (StartOutcome.failedStore, false)

/-- Observable state of `FallbackWorker` (main.py 370-382): the `running`
flag and the number of live worker-loop threads. -/
structure WorkerState where
  running : Bool
  liveThreads : Nat
deriving DecidableEq, Repr

/-- `FallbackWorker.start` (main.py 376-382): only when not already
running does it set the flag and spawn one loop thread. -/
def fallbackWorker_start (s : WorkerState) : WorkerState :=
  if s.running then s
  else { running := true, liveThreads := s.liveThreads + 1 }

/-- The `POST /fallback/worker/start` endpoint (main.py 557-565) just
calls `fallback_worker.start()`. -/
def start_fallback_worker (s : WorkerState) : WorkerState :=
  fallbackWorker_start s

/-- The process-wide worker instance before any start (main.py 371-374,
546). -/
def initialWorkerState : WorkerState := { running := false, liveThreads := 0 }

/-! ## Helper lemmas -/

theorem append_dead_letter_ne (q : String) : q ++ "_dead_letter" ≠ q := by
  intro h
  have h2 := congrArg String.length h
  rw [String.length_append] at h2
  have h3 : ("_dead_letter" : String).length = 12 := by decide
  rw [h3] at h2
  omega

theorem emailExists_false_of_countEmail_zero (db : UserDB) (email : String)
    (h : countEmail db email = 0) : emailExists db email = false := by
  cases hb : emailExists db email with
  | false => rfl
  | true =>
    exfalso
    rw [emailExists] at hb
    obtain ⟨x, hx, hpx⟩ := List.any_eq_true.mp hb
    have hmem : x ∈ db.filter (fun r => r.2 == email) :=
      List.mem_filter.mpr ⟨hx, hpx⟩
    rw [countEmail, List.length_eq_zero] at h
    rw [h] at hmem
    cases hmem

theorem countEmail_append_self (db : UserDB) (name email : String) :
    countEmail (db ++ [(name, email)]) email = countEmail db email + 1 := by
  rw [countEmail, countEmail, List.filter_append, List.length_append]
  simp [List.filter]

theorem emailExists_append_self (db : UserDB) (name email : String) :
    emailExists (db ++ [(name, email)]) email = true := by
  rw [emailExists]
  simp [List.any_append]

theorem start_iterate_cases (n : Nat) :
    start_fallback_worker^[n] initialWorkerState = initialWorkerState ∨
    start_fallback_worker^[n] initialWorkerState =
      { running := true, liveThreads := 1 } := by
  induction n with
  | zero => left; rfl
  | succ k ih =>
    rw [Function.iterate_succ_apply']
    rcases ih with h | h <;> rw [h]
    · right; rfl
    · right; rfl

theorem wait_from_eq_true_iff (health : Nat → Bool) :
    ∀ (fuel attempt : Nat),
      wait_for_postgres_from health attempt fuel = true ↔
      ∃ i, attempt ≤ i ∧ i < attempt + fuel ∧ health i = true := by
  intro fuel
  induction fuel with
  | zero =>
    intro a
    constructor
    · intro h
      simp [wait_for_postgres_from] at h
    · rintro ⟨i, h1, h2, -⟩
      omega
  | succ k ih =>
    intro a
    constructor
    · intro h
      rw [wait_for_postgres_from] at h
      by_cases ha : health a = true
      · exact ⟨a, Nat.le_refl a, by omega, ha⟩
      · rw [if_neg ha] at h
        obtain ⟨i, h1, h2, h3⟩ := (ih (a + 1)).mp h
        exact ⟨i, by omega, by omega, h3⟩
    · rintro ⟨i, h1, h2, h3⟩
      rw [wait_for_postgres_from]
      by_cases ha : health a = true
      · rw [if_pos ha]
      · rw [if_neg ha]
        apply (ih (a + 1)).mpr
        refine ⟨i, ?_, by omega, h3⟩
        rcases Nat.eq_or_lt_of_le h1 with rfl | hlt
        · exact absurd h3 ha
        · omega

/-! ## Claims -/

/-- C1 (counterexample): the claim says the dedicated consumer subscribes to
the very queue the producer fills and the polling worker drains; in the code
the dedicated consumers subscribe to `sql_fallback` / `nosql_fallback`,
which differ from `users_fallback_queue` / `logs_fallback_queue`. -/
theorem C1_counterexample :
    sqlConsumer_queue_name ≠ producer_users_queue ∧
    nosqlConsumer_queue_name ≠ producer_logs_queue := by
  constructor <;> decide

/-- C1 (amended): per domain, the producer and the polling worker do share
one queue (`users_fallback_queue`, `logs_fallback_queue`), but the dedicated
consumers subscribe to different queues (`sql_fallback`, `nosql_fallback`),
so they do not drain the queues the producer publishes failed writes to. -/
theorem C1_amended_queue_topology :
    producer_users_queue = worker_users_queue ∧
    producer_logs_queue = worker_logs_queue ∧
    sqlConsumer_queue_name ≠ worker_users_queue ∧
    nosqlConsumer_queue_name ≠ worker_logs_queue := by
  refine ⟨rfl, rfl, ?_, ?_⟩ <;> decide

/-- C5: on a polling-path replay failure, `_requeue_with_retry` increments
`retry_count`; when the new value is at most 5 it re-publishes to the same
queue with the updated count and a fresh `last_retry`; when it exceeds 5 it
publishes the envelope once to `<queue>_dead_letter`, which is never the
active queue. -/
theorem C5_polling_requeue_policy (queue_name now : String)
    (m : FallbackMessage) :
    (m.retry_count.getD 0 + 1 ≤ 5 →
      requeue_with_retry queue_name m now =
        (queue_name,
         { m with retry_count := some (m.retry_count.getD 0 + 1),
                  last_retry := some now })) ∧
    (5 < m.retry_count.getD 0 + 1 →
      requeue_with_retry queue_name m now =
        (queue_name ++ "_dead_letter", m) ∧
      queue_name ++ "_dead_letter" ≠ queue_name) := by
  constructor
  · intro h
    simp [requeue_with_retry, h]
  · intro h
    have h2 : ¬ (m.retry_count.getD 0 + 1 ≤ 5) := by omega
    exact ⟨by simp [requeue_with_retry, h2], append_dead_letter_ne queue_name⟩

/-- Witness for C5: a fresh log envelope is requeued with count 1; the
spec scenario envelope with `retry_count = 5` goes to
`logs_fallback_queue_dead_letter` and not back to the active queue. -/
theorem C5_polling_requeue_policy_witness :
    ((0 : Nat) + 1 ≤ 5 ∧
     requeue_with_retry worker_logs_queue
        { operation_type := some "create_log", timestamp := none,
          data := [("action", "boot"), ("details", "d")],
          retry_count := none, last_retry := none } "t" =
       (worker_logs_queue,
        { operation_type := some "create_log", timestamp := none,
          data := [("action", "boot"), ("details", "d")],
          retry_count := some 1, last_retry := some "t" })) ∧
    (5 < (5 : Nat) + 1 ∧
     requeue_with_retry worker_logs_queue
        { operation_type := some "create_log", timestamp := none,
          data := [("action", "boot"), ("details", "d")],
          retry_count := some 5, last_retry := some "s" } "t" =
       (worker_logs_queue ++ "_dead_letter",
        { operation_type := some "create_log", timestamp := none,
          data := [("action", "boot"), ("details", "d")],
          retry_count := some 5, last_retry := some "s" }) ∧
     worker_logs_queue ++ "_dead_letter" ≠ worker_logs_queue) :=
  ⟨⟨by decide,
    (C5_polling_requeue_policy worker_logs_queue "t"
      { operation_type := some "create_log", timestamp := none,
        data := [("action", "boot"), ("details", "d")],
        retry_count := none, last_retry := none }).1 (by decide)⟩,
   ⟨by decide,
    (C5_polling_requeue_policy worker_logs_queue "t"
      { operation_type := some "create_log", timestamp := none,
        data := [("action", "boot"), ("details", "d")],
        retry_count := some 5, last_retry := some "s" }).2 (by decide)⟩⟩

/-- C6: `send_message` is a total boolean function — a missing channel, a
serialization fault, or a publish fault (any `Except.error` of the body)
is reported to the caller as `false`, never raised. -/
theorem C6_send_message_reports_faults_as_false (queue_name : String)
    (message : FallbackMessage) (f : BrokerFaults) :
    (f.channelAvailable = false ∨ f.serializeOk = false ∨
        f.publishOk = false →
      send_message queue_name message f = false) ∧
    (∀ e : String, send_message_attempt queue_name message f =
        Except.error e →
      send_message queue_name message f = false) := by
  constructor
  · intro h
    rcases f with ⟨c, sOk, p⟩
    cases c <;> cases sOk <;> cases p <;>
      simp_all [send_message, send_message_attempt, pure, Except.pure]
  · intro e he
    simp [send_message, he]

/-- Witness for C6: a serialization fault makes `send_message` return
`false`. -/
theorem C6_send_message_reports_faults_as_false_witness :
    (({ channelAvailable := true, serializeOk := false, publishOk := true } :
        BrokerFaults).channelAvailable = false ∨
     ({ channelAvailable := true, serializeOk := false, publishOk := true } :
        BrokerFaults).serializeOk = false ∨
     ({ channelAvailable := true, serializeOk := false, publishOk := true } :
        BrokerFaults).publishOk = false) ∧
    send_message "users_fallback_queue"
      { operation_type := some "create_user", timestamp := some "t",
        data := [("name", "Ana"), ("email", "a@x.com")],
        retry_count := some 0, last_retry := none }
      { channelAvailable := true, serializeOk := false, publishOk := true } =
      false :=
  ⟨Or.inr (Or.inl rfl),
   (C6_send_message_reports_faults_as_false "users_fallback_queue"
      { operation_type := some "create_user", timestamp := some "t",
        data := [("name", "Ana"), ("email", "a@x.com")],
        retry_count := some 0, last_retry := none }
      { channelAvailable := true, serializeOk := false,
        publishOk := true }).1 (Or.inr (Or.inl rfl))⟩

/-- C9: when the health gate fails, a polling-worker cycle pulls zero
messages from that domain's queue and leaves it untouched — for the users
queue (PostgreSQL gate) and the logs queue (Mongo ping gate) alike. -/
theorem C9_health_gate_skips_cycle (s : StoreFaults) (insertOk : Bool)
    (now : String) (fuel : Nat) (db : UserDB) (logs : LogDB)
    (qsU qsL : QueueState) :
    process_users_queue false s now fuel db qsU = (db, qsU, 0) ∧
    process_logs_queue false insertOk now fuel logs qsL = (logs, qsL, 0) :=
  ⟨rfl, rfl⟩

/-- C10: `FallbackWorker.start` does nothing when the worker is already
running, is idempotent, and however often the start endpoint is invoked
from the fresh process state, at most one worker-loop thread is live. -/
theorem C10_start_idempotent (s : WorkerState) (n : Nat) :
    (s.running = true → fallbackWorker_start s = s) ∧
    fallbackWorker_start (fallbackWorker_start s) = fallbackWorker_start s ∧
    (start_fallback_worker^[n] initialWorkerState).liveThreads ≤ 1 := by
  refine ⟨?_, ?_, ?_⟩
  · intro h
    simp [fallbackWorker_start, h]
  · cases hr : s.running <;> simp [fallbackWorker_start, hr]
  · rcases start_iterate_cases n with h | h <;> rw [h] <;> decide

/-- Witness for C10: starting an already-running worker changes nothing. -/
theorem C10_start_idempotent_witness :
    ({ running := true, liveThreads := 1 } : WorkerState).running = true ∧
    fallbackWorker_start { running := true, liveThreads := 1 } =
      { running := true, liveThreads := 1 } :=
  ⟨rfl, (C10_start_idempotent { running := true, liveThreads := 1 } 2).1 rfl⟩

/-- The payload the user-creation fallback enqueues:
`{"name": ..., "email": ...}` (main.py 223). -/
def user_fallback_data (name email : String) : Payload :=
  [("name", name), ("email", email)]

/-- C2 (counterexample): a transient replay failure in the dedicated path
on a delivery with header `retry_count = 0 < 3` nacks with requeue, and the
broker redelivers the identical envelope — the next delivery still carries
`retry_count = 0`, not `0 + 1` as the claim states. -/
theorem C2_counterexample :
    (sql_process_message (some [("name", "Ana"), ("email", "a@x.com")])
        (some [("retry_count", 0)])
        { sessionOk := true, queryOk := true, insertOk := false } []).1 =
      ConsumerAck.nackRequeue ∧
    headerRetryCount
      (redelivered (some [("name", "Ana"), ("email", "a@x.com")])
        (some [("retry_count", 0)])).2 = 0 ∧
    (0 : Nat) ≠ 0 + 1 := by
  refine ⟨by decide, rfl, by omega⟩

/-- C2 (amended): in the dedicated path a transient replay failure with
header `retry_count = r < 3` negative-acknowledges with requeue and the
broker redelivers the envelope with its headers — hence `retry_count` —
unchanged: the consumer reads the counter but nothing ever increments it.
`retry_count` never decreases in either path: it is static on the dedicated
path's redelivery, and the polling path's requeue only ever raises it. -/
theorem C2_amended_retry_count_static (data : Payload) (name email : String)
    (hs : List (String × Nat)) (db : UserDB)
    (hname : data.lookup "name" = some name)
    (hemail : data.lookup "email" = some email)
    (hdup : emailExists db email = false)
    (hlt : headerRetryCount (some hs) < 3) :
    (sql_process_message (some data) (some hs)
        { sessionOk := true, queryOk := true, insertOk := false } db).1 =
      ConsumerAck.nackRequeue ∧
    (redelivered (some data) (some hs)).2 = some hs ∧
    ∀ (q now : String) (m : FallbackMessage),
      m.retry_count.getD 0 ≤
        ((requeue_with_retry q m now).2).retry_count.getD 0 := by
  refine ⟨?_, rfl, ?_⟩
  · simp [sql_process_message, hname, hemail, hdup, sqlRetryDecision, hlt]
  · intro q now m
    by_cases h : m.retry_count.getD 0 + 1 ≤ 5
    · simp [requeue_with_retry, h]
    · simp [requeue_with_retry, h]

/-- Witness for C2 (amended): a concrete delivery with header count 1
is requeued and redelivered with its headers intact. -/
theorem C2_amended_retry_count_static_witness :
    ([("name", "Ana"), ("email", "a@x.com")] : Payload).lookup "name" =
      some "Ana" ∧
    emailExists [] "a@x.com" = false ∧
    headerRetryCount (some [("retry_count", 1)]) < 3 ∧
    (sql_process_message (some [("name", "Ana"), ("email", "a@x.com")])
        (some [("retry_count", 1)])
        { sessionOk := true, queryOk := true, insertOk := false } []).1 =
      ConsumerAck.nackRequeue :=
  ⟨by decide, by decide, by decide,
   (C2_amended_retry_count_static [("name", "Ana"), ("email", "a@x.com")]
      "Ana" "a@x.com" [("retry_count", 1)] [] (by decide) (by decide)
      (by decide) (by decide)).1⟩

/-- C3 (counterexample): an envelope with `operation_type = "create_log"`
sitting in the users queue is pulled (auto-acked) by a healthy polling
cycle and then simply vanishes: both the active and the dead-letter queues
end empty after one pull, with no re-publish. -/
theorem C3_counterexample :
    process_users_queue true
      { sessionOk := true, queryOk := true, insertOk := true } "t" 4 []
      { active := [{ operation_type := some "create_log", timestamp := none,
                     data := [("action", "boot")], retry_count := some 0,
                     last_retry := none }], dead := [] } =
      ([], { active := [], dead := [] }, 1) := by
  decide

/-- C3 (amended): an envelope pulled by the polling worker whose replay
fails is re-published exactly once — to the active queue or to its derived
dead-letter queue — but an envelope whose `operation_type` is not the one
expected for its queue is silently dropped (auto-acked with no publish),
in the users and logs paths alike. -/
theorem C3_amended_no_silent_loss_on_failure (m : FallbackMessage)
    (db : UserDB) (logs : LogDB) (s : StoreFaults) (insertOk : Bool)
    (now : String) :
    (m.operation_type.getD "unknown" = "create_user" →
      (create_user_from_queue m.data db s).1 = false →
      (handle_users_message m db s now).1 =
        [requeue_with_retry worker_users_queue m now] ∧
      ((requeue_with_retry worker_users_queue m now).1 = worker_users_queue ∨
       (requeue_with_retry worker_users_queue m now).1 =
         worker_users_queue ++ "_dead_letter")) ∧
    (m.operation_type.getD "unknown" ≠ "create_user" →
      (handle_users_message m db s now).1 = []) ∧
    (m.operation_type.getD "unknown" = "create_log" →
      (create_log_from_queue m.data logs insertOk).1 = false →
      (handle_logs_message m logs insertOk now).1 =
        [requeue_with_retry worker_logs_queue m now]) ∧
    (m.operation_type.getD "unknown" ≠ "create_log" →
      (handle_logs_message m logs insertOk now).1 = []) := by
  refine ⟨?_, ?_, ?_, ?_⟩
  · intro hop hfail
    refine ⟨?_, ?_⟩
    · simp [handle_users_message, hop, hfail]
    · by_cases h : m.retry_count.getD 0 + 1 ≤ 5
      · left; simp [requeue_with_retry, h]
      · right; simp [requeue_with_retry, h]
  · intro hop
    simp [handle_users_message, beq_iff_eq, hop]
  · intro hop hfail
    simp [handle_logs_message, hop, hfail]
  · intro hop
    simp [handle_logs_message, beq_iff_eq, hop]

/-- Witness for C3 (amended): a failing `create_user` envelope (missing
email) is re-published rather than lost. -/
theorem C3_amended_no_silent_loss_on_failure_witness :
    ({ operation_type := some "create_user", timestamp := none,
       data := [("name", "Ana")], retry_count := some 0,
       last_retry := none } : FallbackMessage).operation_type.getD
        "unknown" = "create_user" ∧
    (create_user_from_queue [("name", "Ana")] []
       { sessionOk := true, queryOk := true, insertOk := true }).1 = false ∧
    (handle_users_message
       { operation_type := some "create_user", timestamp := none,
         data := [("name", "Ana")], retry_count := some 0,
         last_retry := none } []
       { sessionOk := true, queryOk := true, insertOk := true } "t").1 =
      [requeue_with_retry worker_users_queue
        { operation_type := some "create_user", timestamp := none,
          data := [("name", "Ana")], retry_count := some 0,
          last_retry := none } "t"] :=
  ⟨rfl, by decide,
   ((C3_amended_no_silent_loss_on_failure
      { operation_type := some "create_user", timestamp := none,
        data := [("name", "Ana")], retry_count := some 0,
        last_retry := none } [] []
      { sessionOk := true, queryOk := true, insertOk := true } true "t").1
      rfl (by decide)).1⟩

/-- C4 (counterexample): on the polling path, an envelope missing the
required `email` field is not dropped on its first delivery — it is
re-published to the active queue with its retry counter incremented to 1. -/
theorem C4_counterexample :
    (handle_users_message
        { operation_type := some "create_user", timestamp := none,
          data := [("name", "Ana")], retry_count := some 0,
          last_retry := none } []
        { sessionOk := true, queryOk := true, insertOk := true } "t").1 =
      [(worker_users_queue,
        { operation_type := some "create_user", timestamp := none,
          data := [("name", "Ana")], retry_count := some 1,
          last_retry := some "t" })] := by
  decide

/-- C4 (amended): on the dedicated-consumer path an envelope missing a
required field is dropped on first delivery with the store untouched, no
retry increment and no dead-letter; on the polling-worker path a payload
missing its required `email` is treated as a replay failure — the envelope
is handed to `_requeue_with_retry`, which republishes it with
`retry_count` incremented (while the new value is at most 5, after which
it is dead-lettered). -/
theorem C4_amended_missing_field_paths (data : Payload) (headers : Headers)
    (s : StoreFaults) (db : UserDB) (m : FallbackMessage) (now : String)
    (hmiss : data.lookup "name" = none ∨ data.lookup "email" = none)
    (hop : m.operation_type.getD "unknown" = "create_user")
    (hdmiss : m.data.lookup "email" = none)
    (hsess : s.sessionOk = true) :
    sql_process_message (some data) headers s db =
      (ConsumerAck.nackDrop, db) ∧
    (handle_users_message m db s now).1 =
      [requeue_with_retry worker_users_queue m now] ∧
    (m.retry_count.getD 0 + 1 ≤ 5 →
      (requeue_with_retry worker_users_queue m now).2.retry_count =
        some (m.retry_count.getD 0 + 1)) := by
  refine ⟨?_, ?_, ?_⟩
  · cases hn : data.lookup "name" with
    | none => simp [sql_process_message, hn]
    | some nm =>
      cases he : data.lookup "email" with
      | none => simp [sql_process_message, hn, he]
      | some em =>
        rcases hmiss with h | h
        · rw [hn] at h; simp at h
        · rw [he] at h; simp at h
  · have hfail : (create_user_from_queue m.data db s).1 = false := by
      simp [create_user_from_queue, hsess, hdmiss]
    simp [handle_users_message, hop, hfail]
  · intro h
    simp [requeue_with_retry, h]

/-- Witness for C4 (amended): the dedicated path drops a payload missing
`email`; the polling path requeues the same payload with count 1. -/
theorem C4_amended_missing_field_paths_witness :
    (([("name", "Ana")] : Payload).lookup "name" = none ∨
     ([("name", "Ana")] : Payload).lookup "email" = none) ∧
    sql_process_message (some [("name", "Ana")]) none
      { sessionOk := true, queryOk := true, insertOk := true } [] =
      (ConsumerAck.nackDrop, []) ∧
    (handle_users_message
        { operation_type := some "create_user", timestamp := none,
          data := [("name", "Ana")], retry_count := some 0,
          last_retry := none } []
        { sessionOk := true, queryOk := true, insertOk := true } "t").1 =
      [requeue_with_retry worker_users_queue
        { operation_type := some "create_user", timestamp := none,
          data := [("name", "Ana")], retry_count := some 0,
          last_retry := none } "t"] :=
  ⟨Or.inr (by decide),
   (C4_amended_missing_field_paths [("name", "Ana")] none
      { sessionOk := true, queryOk := true, insertOk := true } []
      { operation_type := some "create_user", timestamp := none,
        data := [("name", "Ana")], retry_count := some 0,
        last_retry := none } "t" (Or.inr (by decide)) rfl (by decide)
      rfl).1,
   (C4_amended_missing_field_paths [("name", "Ana")] none
      { sessionOk := true, queryOk := true, insertOk := true } []
      { operation_type := some "create_user", timestamp := none,
        data := [("name", "Ana")], retry_count := some 0,
        last_retry := none } "t" (Or.inr (by decide)) rfl (by decide)
      rfl).2.1⟩

/-- C7: replaying the same user-creation envelope twice against a
reachable, fault-free store succeeds both times — the second replay is
acknowledged as a duplicate with the store unchanged — and leaves exactly
one row for that email, on the polling path (`_create_user_from_queue`)
and the dedicated path (`SQLConsumer.process_message`) alike. -/
theorem C7_duplicate_replay_idempotent (name email : String) (db : UserDB)
    (h0 : countEmail db email = 0) :
    (create_user_from_queue (user_fallback_data name email) db
        { sessionOk := true, queryOk := true, insertOk := true }).1 =
      true ∧
    create_user_from_queue (user_fallback_data name email)
        (create_user_from_queue (user_fallback_data name email) db
          { sessionOk := true, queryOk := true, insertOk := true }).2
        { sessionOk := true, queryOk := true, insertOk := true } =
      (true,
       (create_user_from_queue (user_fallback_data name email) db
          { sessionOk := true, queryOk := true, insertOk := true }).2) ∧
    countEmail
        (create_user_from_queue (user_fallback_data name email) db
          { sessionOk := true, queryOk := true, insertOk := true }).2
        email = 1 ∧
    (sql_process_message (some (user_fallback_data name email)) none
        { sessionOk := true, queryOk := true, insertOk := true } db).1 =
      ConsumerAck.ack ∧
    sql_process_message (some (user_fallback_data name email)) none
        { sessionOk := true, queryOk := true, insertOk := true }
        (sql_process_message (some (user_fallback_data name email)) none
          { sessionOk := true, queryOk := true, insertOk := true } db).2 =
      (ConsumerAck.ack,
       (sql_process_message (some (user_fallback_data name email)) none
          { sessionOk := true, queryOk := true, insertOk := true } db).2) ∧
    countEmail
        (sql_process_message (some (user_fallback_data name email)) none
          { sessionOk := true, queryOk := true, insertOk := true } db).2
        email = 1 := by
  have hEx : emailExists db email = false :=
    emailExists_false_of_countEmail_zero db email h0
  have hlookName : (user_fallback_data name email).lookup "name" =
      some name := rfl
  have hlookEmail : (user_fallback_data name email).lookup "email" =
      some email := rfl
  have h1 : create_user_from_queue (user_fallback_data name email) db
      { sessionOk := true, queryOk := true, insertOk := true } =
      (true, db ++ [(name, email)]) := by
    simp [create_user_from_queue, hlookEmail, hlookName, hEx]
  have h2 : create_user_from_queue (user_fallback_data name email)
      (db ++ [(name, email)])
      { sessionOk := true, queryOk := true, insertOk := true } =
      (true, db ++ [(name, email)]) := by
    simp [create_user_from_queue, hlookEmail, emailExists_append_self]
  have p1 : sql_process_message (some (user_fallback_data name email)) none
      { sessionOk := true, queryOk := true, insertOk := true } db =
      (ConsumerAck.ack, db ++ [(name, email)]) := by
    simp [sql_process_message, hlookName, hlookEmail, hEx]
  have p2 : sql_process_message (some (user_fallback_data name email)) none
      { sessionOk := true, queryOk := true, insertOk := true }
      (db ++ [(name, email)]) =
      (ConsumerAck.ack, db ++ [(name, email)]) := by
    simp [sql_process_message, hlookName, hlookEmail,
      emailExists_append_self]
  have hc : countEmail (db ++ [(name, email)]) email = 1 := by
    rw [countEmail_append_self, h0]
  refine ⟨?_, ?_, ?_, ?_, ?_, ?_⟩
  · rw [h1]
  · rw [h1, h2]
  · rw [h1, hc]
  · rw [p1]
  · rw [p1, p2]
  · rw [p1, hc]

/-- Witness for C7: the spec scenario envelope `(Ana, a@x.com)` replayed
twice from the empty store. -/
theorem C7_duplicate_replay_idempotent_witness :
    countEmail [] "a@x.com" = 0 ∧
    (create_user_from_queue (user_fallback_data "Ana" "a@x.com") []
        { sessionOk := true, queryOk := true, insertOk := true }).1 =
      true ∧
    countEmail
        (create_user_from_queue (user_fallback_data "Ana" "a@x.com") []
          { sessionOk := true, queryOk := true, insertOk := true }).2
        "a@x.com" = 1 ∧
    (sql_process_message (some (user_fallback_data "Ana" "a@x.com")) none
        { sessionOk := true, queryOk := true, insertOk := true } []).1 =
      ConsumerAck.ack :=
  ⟨by decide,
   (C7_duplicate_replay_idempotent "Ana" "a@x.com" [] (by decide)).1,
   (C7_duplicate_replay_idempotent "Ana" "a@x.com" [] (by decide)).2.2.1,
   (C7_duplicate_replay_idempotent "Ana" "a@x.com" []
      (by decide)).2.2.2.1⟩

/-- C8: the dedicated consumer's startup probes the store at a fixed
10-second interval for at most 30 attempts; if no probe in that window
succeeds it fails without ever attempting a broker connection, and a
broker connection is attempted only when some probe within the bound
succeeded. -/
theorem C8_startup_health_gate (health : Nat → Bool) (brokerOk : Bool) :
    postgres_poll_interval = 10 ∧ postgres_max_attempts = 30 ∧
    ((∀ i, 1 ≤ i → i ≤ 30 → health i = false) →
      start_consuming health brokerOk = (StartOutcome.failedStore, false)) ∧
    ((start_consuming health brokerOk).2 = true →
      ∃ i, 1 ≤ i ∧ i ≤ 30 ∧ health i = true) := by
  refine ⟨rfl, rfl, ?_, ?_⟩
  · intro hall
    cases hx : wait_for_postgres health with
    | false => simp [start_consuming, hx]
    | true =>
      exfalso
      rw [wait_for_postgres] at hx
      obtain ⟨i, h1, h2, h3⟩ :=
        (wait_from_eq_true_iff health postgres_max_attempts 1).mp hx
      have hb : postgres_max_attempts = 30 := rfl
      rw [hb] at h2
      have h4 := hall i h1 (by omega)
      rw [h4] at h3
      simp at h3
  · intro h
    cases hx : wait_for_postgres health with
    | false => simp [start_consuming, hx] at h
    | true =>
      rw [wait_for_postgres] at hx
      obtain ⟨i, h1, h2, h3⟩ :=
        (wait_from_eq_true_iff health postgres_max_attempts 1).mp hx
      have hb : postgres_max_attempts = 30 := rfl
      rw [hb] at h2
      exact ⟨i, h1, by omega, h3⟩

/-- Witness for C8: with a store that never becomes healthy, startup fails
without attempting the broker. -/
theorem C8_startup_health_gate_witness :
    (∀ i, 1 ≤ i → i ≤ 30 → (fun _ => false : Nat → Bool) i = false) ∧
    start_consuming (fun _ => false) true =
      (StartOutcome.failedStore, false) :=
  ⟨fun _ _ _ => rfl,
   (C8_startup_health_gate (fun _ => false) true).2.2.1
     (fun _ _ _ => rfl)⟩
